import Mathlib

/-!
# Verification of the AmatoreTaxWeb tax calculation engine

Shallow embedding of `AmatoreTaxWeb/tax_calculator.py` over the rationals.
Dollar amounts are modelled as `ℚ`; Python's `round(x, 2)` is modelled as
rounding `x * 100` to the nearest integer (ties rounded up; an exact
half-cent tie is not representable in binary floating point, so the
tie-breaking direction is unobservable in the source program) and dividing
by 100.  The `KeyError` raised by a dictionary lookup with an unknown
filing-status key is modelled by `Except`-valued wrappers over a string
status.
-/

/-- The three filing statuses that key the bracket and deduction tables. -/
inductive Status where
  | S
  | MFJ
  | HOH
deriving DecidableEq

/-- 2024 federal brackets: `(threshold, marginal rate)` pairs, per status. -/
def BRACKETS : Status → List (ℚ × ℚ)
  | .S   => [(0, 0.10), (11600, 0.12), (47150, 0.22), (100525, 0.24),
             (191950, 0.32), (243725, 0.35), (609350, 0.37)]
  | .MFJ => [(0, 0.10), (23200, 0.12), (94300, 0.22), (201050, 0.24),
             (383900, 0.32), (487450, 0.35), (731200, 0.37)]
  | .HOH => [(0, 0.10), (16550, 0.12), (63100, 0.22), (100500, 0.24),
             (191950, 0.32), (243700, 0.35), (609350, 0.37)]

/-- Standard deduction per filing status. -/
def STANDARD_DED : Status → ℚ
  | .S => 14600
  | .MFJ => 29200
  | .HOH => 21900

def SS_WAGE_BASE : ℚ := 168600

def SE_MULTIPLIER : ℚ := 0.9235

def MEDICARE_RATE : ℚ := 0.029

def SOCSEC_RATE : ℚ := 0.124

/-- Python's `round(x, 2)` (see header note on tie-breaking): round
`x * 100` to the nearest integer and divide by 100.  Written with the
executable `Rat.floor`; `ratFloor_eq_intFloor` below bridges to the
`Int.floor` lemmas. -/
def round2 (x : ℚ) : ℚ := ((x * 100 + 1 / 2).floor : ℚ) / 100

/-- The `Inputs` dataclass. -/
structure Inputs where
  status : Status
  wages : ℚ
  sch_c : ℚ
  other_income : ℚ
  itemized : ℚ
  reasonable_comp : ℚ := 0
  s_corp : Bool := false

/-- The result dictionary returned by `compute_baseline` / `compute_scenario`. -/
@[ext]
structure TaxResult where
  taxable_income : ℚ
  federal_tax : ℚ
  se_tax : ℚ
  qbi : ℚ
  total_tax : ℚ
deriving DecidableEq

/-- `taxable_income` from the source:
`max(0.0, wages + sch_c + other_income - max(std, itemized))`. -/
def taxable_income (status : Status) (wages sch_c other_income itemized : ℚ) : ℚ :=
  let std := STANDARD_DED status
  max 0 (wages + sch_c + other_income - max std itemized)

/-- The bracket loop inside `federal_tax`: walks the bracket list; for
bracket `(start, rate)` whose implicit upper end is the next threshold
(`float("inf")`, i.e. `taxable` itself, for the last bracket), adds
`(min(taxable, end) - start) * rate` when positive, and breaks as soon as
`taxable <= start`. -/
def fedLoop (taxable : ℚ) : List (ℚ × ℚ) → ℚ
  | [] => 0
  | (start, rate) :: rest =>
      if start < taxable then
        let e := match rest with
          | [] => taxable
          | (next, _) :: _ => min taxable next
        (if 0 < e - start then (e - start) * rate else 0) + fedLoop taxable rest
      else 0

/-- `federal_tax` from the source: the bracket loop, rounded to cents. -/
def federal_tax (taxable : ℚ) (status : Status) : ℚ :=
  round2 (fedLoop taxable (BRACKETS status))

/-- `se_tax_from_sch_c` from the source. -/
def se_tax_from_sch_c (sch_c : ℚ) : ℚ :=
  if sch_c ≤ 0 then 0
  else
    let base := sch_c * SE_MULTIPLIER
    round2 (min base SS_WAGE_BASE * SOCSEC_RATE + base * MEDICARE_RATE)

/-- `qbi_from_sch_c` from the source: `0` for non-positive profit, else the
lesser of 20% of profit and the pre-QBI taxable income, rounded to cents. -/
def qbi_from_sch_c (sch_c_after_rc : ℚ) (status : Status)
    (wages other_income itemized : ℚ) : ℚ :=
  if sch_c_after_rc ≤ 0 then 0
  else
    let taxable_before :=
      max 0 (wages + sch_c_after_rc + other_income - max (STANDARD_DED status) itemized)
    round2 (min (0.2 * sch_c_after_rc) taxable_before)

/-- `compute_baseline` from the source. -/
def compute_baseline (inp : Inputs) : TaxResult :=
  let ti := taxable_income inp.status inp.wages inp.sch_c inp.other_income inp.itemized
  let se := se_tax_from_sch_c inp.sch_c
  let qbi := qbi_from_sch_c inp.sch_c inp.status inp.wages inp.other_income inp.itemized
  let ti_qbi := max 0 (ti - qbi)
  let fed := federal_tax ti_qbi inp.status
  let total := fed + se
  ⟨ti_qbi, fed, se, qbi, total⟩

/-- `compute_scenario` from the source: under the S-Corp election,
reclassify `reasonable_comp` out of profit into wages (profit floored at 0),
force SE tax to 0; otherwise defer to `compute_baseline`. -/
def compute_scenario (inp : Inputs) : TaxResult :=
  if inp.s_corp then
    let sch := max 0 (inp.sch_c - inp.reasonable_comp)
    let se : ℚ := 0
    let qbi := qbi_from_sch_c sch inp.status (inp.wages + inp.reasonable_comp)
      inp.other_income inp.itemized
    let ti := taxable_income inp.status (inp.wages + inp.reasonable_comp) sch
      inp.other_income inp.itemized
    let ti_qbi := max 0 (ti - qbi)
    let fed := federal_tax ti_qbi inp.status
    let total := fed + se
    ⟨ti_qbi, fed, se, qbi, total⟩
  else
    compute_baseline inp

/-- The single error kind of the engine.  The source raises a `KeyError`
when `STANDARD_DED[status]` / `BRACKETS[status]` is looked up with a key
outside the three tabulated statuses; the spec names this condition
`InvalidFilingStatus`. -/
inductive TaxError where
  | invalidFilingStatus
deriving DecidableEq

/-- Dictionary-key lookup of a filing-status string, as performed by
`STANDARD_DED[status]` and `BRACKETS[status]`: an unknown key raises. -/
def lookupStatus (s : String) : Except TaxError Status :=
  if s = "S" then .ok .S
  else if s = "MFJ" then .ok .MFJ
  else if s = "HOH" then .ok .HOH
  else .error .invalidFilingStatus

/-- `taxable_income` called with a raw string status: the first statement
`std = STANDARD_DED[status]` raises on an unknown key, and the error
propagates to the caller. -/
def taxable_income_checked (status : String) (wages sch_c other_income itemized : ℚ) :
    Except TaxError ℚ :=
  (lookupStatus status).map fun st => taxable_income st wages sch_c other_income itemized

/-- `federal_tax` called with a raw string status: `BRACKETS[status]`
raises on an unknown key before the bracket loop runs. -/
def federal_tax_checked (taxable : ℚ) (status : String) : Except TaxError ℚ :=
  (lookupStatus status).map fun st => federal_tax taxable st

/-- Break-free form of the bracket loop: every bracket contributes
`max 0 (min(taxable, next) - start) * rate`.  Proved equal to `fedLoop`
for sorted tables; used to reason about slopes. -/
def fedSum (taxable : ℚ) : List (ℚ × ℚ) → ℚ
  | [] => 0
  | (start, rate) :: rest =>
      let e := match rest with
        | [] => taxable
        | (next, _) :: _ => min taxable next
      max 0 (e - start) * rate + fedSum taxable rest

/-- The SE-tax amount before the final rounding, as computed by the body of
`se_tax_from_sch_c`. -/
def seRaw (sch_c : ℚ) : ℚ :=
  min (sch_c * SE_MULTIPLIER) SS_WAGE_BASE * SOCSEC_RATE + sch_c * SE_MULTIPLIER * MEDICARE_RATE

/-- The QBI amount before the final rounding, as computed by the body of
`qbi_from_sch_c`. -/
def qbiRaw (sch_c_after_rc : ℚ) (status : Status) (wages other_income itemized : ℚ) : ℚ :=
  min (0.2 * sch_c_after_rc)
    (max 0 (wages + sch_c_after_rc + other_income - max (STANDARD_DED status) itemized))

/-- The result the spec describes for the S-Corp branch of
`compute_scenario`: `reasonable_comp` reclassified from profit (floored at
0) into wages for both the QBI and taxable-income computations, SE tax
forced to 0, total = federal + 0. -/
def scorpExpected (inp : Inputs) : TaxResult :=
  let w := inp.wages + inp.reasonable_comp
  let sch := max 0 (inp.sch_c - inp.reasonable_comp)
  let q := qbi_from_sch_c sch inp.status w inp.other_income inp.itemized
  let ti := taxable_income inp.status w sch inp.other_income inp.itemized
  let tq := max 0 (ti - q)
  let fed := federal_tax tq inp.status
  ⟨tq, fed, 0, q, fed + 0⟩

/-- `q` is a whole number of cents (carries at most two decimal places). -/
def isTwoDec (q : ℚ) : Prop := ∃ n : ℤ, q * 100 = (n : ℚ)

/-- The `i`-th `(threshold, rate)` pair of a status's bracket table. -/
def nthBracket (st : Status) (i : ℕ) : ℚ × ℚ := (BRACKETS st).getD i (0, 0)

/-- Sum over the brackets below index `j` of bracket width times rate. -/
def lowerBracketSum (st : Status) (j : ℕ) : ℚ :=
  ∑ i ∈ Finset.range j, ((nthBracket st (i + 1)).1 - (nthBracket st i).1) * (nthBracket st i).2

/-! ## Evaluation and rounding lemmas -/

/-- The executable `Rat.floor` agrees with `Int.floor`. -/
theorem ratFloor_eq_intFloor (q : ℚ) : q.floor = ⌊q⌋ :=
  (Rat.floor_def' q).trans Rat.floor_def.symm

/-- Evaluate `round2` at a concrete rational. -/
theorem round2_eval (x : ℚ) (n : ℤ) (y : ℚ) (h1 : (n : ℚ) ≤ x * 100 + 1 / 2)
    (h2 : x * 100 + 1 / 2 < (n : ℚ) + 1) (h3 : (n : ℚ) / 100 = y) : round2 x = y := by
  unfold round2
  rw [ratFloor_eq_intFloor, Int.floor_eq_iff.mpr ⟨h1, by exact_mod_cast h2⟩]
  exact h3

/-- `round2` is monotone. -/
theorem round2_mono {x y : ℚ} (h : x ≤ y) : round2 x ≤ round2 y := by
  unfold round2
  rw [ratFloor_eq_intFloor, ratFloor_eq_intFloor]
  have hf : ⌊x * 100 + 1 / 2⌋ ≤ ⌊y * 100 + 1 / 2⌋ := Int.floor_mono (by linarith)
  have hq : ((⌊x * 100 + 1 / 2⌋ : ℤ) : ℚ) ≤ ((⌊y * 100 + 1 / 2⌋ : ℤ) : ℚ) := by exact_mod_cast hf
  linarith

/-- `round2` overshoots its argument by at most half a cent. -/
theorem round2_le_half_cent (x : ℚ) : round2 x ≤ x + 1 / 200 := by
  unfold round2
  rw [ratFloor_eq_intFloor]
  have hf : ((⌊x * 100 + 1 / 2⌋ : ℤ) : ℚ) ≤ x * 100 + 1 / 2 := Int.floor_le _
  linarith

/-- `round2` of a nonnegative amount is nonnegative. -/
theorem round2_nonneg {x : ℚ} (h : 0 ≤ x) : 0 ≤ round2 x := by
  unfold round2
  rw [ratFloor_eq_intFloor]
  have hf : (0 : ℤ) ≤ ⌊x * 100 + 1 / 2⌋ := Int.le_floor.mpr (by push_cast; linarith)
  have hq : (0 : ℚ) ≤ ((⌊x * 100 + 1 / 2⌋ : ℤ) : ℚ) := by exact_mod_cast hf
  linarith

/-- `round2` always lands on a whole number of cents. -/
theorem isTwoDec_round2 (x : ℚ) : isTwoDec (round2 x) := by
  refine ⟨⌊x * 100 + 1 / 2⌋, ?_⟩
  unfold round2
  rw [ratFloor_eq_intFloor]
  field_simp

/-- A sub-cent amount is not a whole number of cents. -/
theorem not_isTwoDec_half_cent : ¬ isTwoDec (1 / 200 : ℚ) := by
  rintro ⟨n, h⟩
  have h' : (n : ℚ) = 1 / 2 := by rw [← h]; norm_num
  have h0 : (0 : ℤ) < n := by exact_mod_cast h' ▸ (by norm_num : (0 : ℚ) < 1 / 2)
  have h1 : (1 : ℤ) ≤ n := h0
  have h2 : (1 : ℚ) ≤ (n : ℚ) := by exact_mod_cast h1
  rw [h'] at h2
  norm_num at h2

/-! ## The bracket loop: structure lemmas -/

theorem fedSum_single (t s r : ℚ) : fedSum t [(s, r)] = max 0 (t - s) * r := by
  simp [fedSum]

theorem fedSum_pair (t s r s2 r2 : ℚ) (rest : List (ℚ × ℚ)) :
    fedSum t ((s, r) :: (s2, r2) :: rest) =
      max 0 (min t s2 - s) * r + fedSum t ((s2, r2) :: rest) := rfl

theorem fedLoop_single (t s r : ℚ) :
    fedLoop t [(s, r)] = if s < t then (if 0 < t - s then (t - s) * r else 0) else 0 := by
  simp [fedLoop]

theorem fedLoop_pair (t s r s2 r2 : ℚ) (rest : List (ℚ × ℚ)) :
    fedLoop t ((s, r) :: (s2, r2) :: rest) =
      if s < t then
        (if 0 < min t s2 - s then (min t s2 - s) * r else 0) + fedLoop t ((s2, r2) :: rest)
      else 0 := rfl

/-- When `t` is at or below every threshold, no bracket contributes. -/
theorem fedSum_eq_zero (t : ℚ) (l : List (ℚ × ℚ)) (h : ∀ p ∈ l, t ≤ p.1) :
    fedSum t l = 0 := by
  induction l with
  | nil => rfl
  | cons a rest ih =>
    obtain ⟨s, r⟩ := a
    have hs : t ≤ s := h (s, r) (List.mem_cons_self _ _)
    have hrest : fedSum t rest = 0 := ih fun p hp => h p (List.mem_cons_of_mem _ hp)
    cases rest with
    | nil =>
      rw [fedSum_single, max_eq_left (by linarith), zero_mul]
    | cons b rest2 =>
      obtain ⟨s2, r2⟩ := b
      have hmin : min t s2 - s ≤ 0 := by
        have := min_le_left t s2
        linarith
      rw [fedSum_pair, max_eq_left hmin, hrest, zero_mul, add_zero]

/-- On a sorted bracket table the break in the source loop is harmless:
`fedLoop` agrees with the break-free `fedSum`. -/
theorem fedLoop_eq_fedSum (t : ℚ) (l : List (ℚ × ℚ))
    (h : l.Pairwise fun a b => a.1 ≤ b.1) : fedLoop t l = fedSum t l := by
  induction l with
  | nil => rfl
  | cons a rest ih =>
    obtain ⟨s, r⟩ := a
    rw [List.pairwise_cons] at h
    obtain ⟨hhead, htail⟩ := h
    cases rest with
    | nil =>
      rw [fedLoop_single, fedSum_single]
      by_cases hts : s < t
      · rw [if_pos hts, if_pos (by linarith), max_eq_right (by linarith)]
      · rw [if_neg hts, max_eq_left (by linarith), zero_mul]
    | cons b rest2 =>
      obtain ⟨s2, r2⟩ := b
      rw [fedLoop_pair, fedSum_pair, ih htail]
      by_cases hts : s < t
      · rw [if_pos hts]
        by_cases hp : 0 < min t s2 - s
        · rw [if_pos hp, max_eq_right (by linarith)]
        · rw [if_neg hp, max_eq_left (by linarith), zero_mul]
      · rw [if_neg hts]
        have ht : t ≤ s := le_of_not_lt hts
        have hmin : min t s2 - s ≤ 0 := by
          have := min_le_left t s2
          linarith
        have hz : fedSum t ((s2, r2) :: rest2) = 0 := by
          refine fedSum_eq_zero t _ fun p hp => ?_
          rcases List.mem_cons.mp hp with hp | hp
          · have : s ≤ s2 := hhead (s2, r2) (List.mem_cons_self _ _)
            rw [hp]
            dsimp only
            linarith
          · have : s ≤ p.1 := hhead p (List.mem_cons_of_mem _ hp)
            linarith
        rw [max_eq_left hmin, hz, zero_mul, add_zero]

/-- With nonnegative rates, `fedSum` is monotone in taxable income. -/
theorem fedSum_mono (l : List (ℚ × ℚ)) (hr : ∀ p ∈ l, 0 ≤ p.2) {t1 t2 : ℚ}
    (h : t1 ≤ t2) : fedSum t1 l ≤ fedSum t2 l := by
  induction l with
  | nil => exact le_refl _
  | cons a rest ih =>
    obtain ⟨s, r⟩ := a
    have h0 : 0 ≤ r := hr (s, r) (List.mem_cons_self _ _)
    have hrec := ih fun p hp => hr p (List.mem_cons_of_mem _ hp)
    cases rest with
    | nil =>
      rw [fedSum_single, fedSum_single]
      exact mul_le_mul_of_nonneg_right (max_le_max le_rfl (by linarith)) h0
    | cons b rest2 =>
      obtain ⟨s2, r2⟩ := b
      rw [fedSum_pair, fedSum_pair]
      have hmin : min t1 s2 ≤ min t2 s2 := min_le_min h le_rfl
      have := mul_le_mul_of_nonneg_right
        (max_le_max (le_refl (0 : ℚ)) (by linarith : min t1 s2 - s ≤ min t2 s2 - s)) h0
      linarith

/-- With nonnegative rates, `fedSum` is nonnegative. -/
theorem fedSum_nonneg (t : ℚ) (l : List (ℚ × ℚ)) (hr : ∀ p ∈ l, 0 ≤ p.2) :
    0 ≤ fedSum t l := by
  induction l with
  | nil => exact le_refl _
  | cons a rest ih =>
    obtain ⟨s, r⟩ := a
    have h0 : 0 ≤ r := hr (s, r) (List.mem_cons_self _ _)
    have hrec := ih fun p hp => hr p (List.mem_cons_of_mem _ hp)
    cases rest with
    | nil =>
      rw [fedSum_single]
      exact mul_nonneg (le_max_left _ _) h0
    | cons b rest2 =>
      obtain ⟨s2, r2⟩ := b
      rw [fedSum_pair]
      have := mul_nonneg (le_max_left (0 : ℚ) (min t s2 - s)) h0
      linarith

/-- In the head position of a sorted table, the head's threshold bounds
every entry from below. -/
theorem pairwise_head_le (s2 r2 : ℚ) (rest2 : List (ℚ × ℚ))
    (hp : ((s2, r2) :: rest2).Pairwise fun a b => a.1 ≤ b.1) (k : ℕ)
    (hk : k < ((s2, r2) :: rest2).length) :
    s2 ≤ (((s2, r2) :: rest2).get ⟨k, hk⟩).1 := by
  cases k with
  | zero => exact le_refl _
  | succ m =>
    rw [List.pairwise_cons] at hp
    exact hp.1 _ (List.get_mem _ _ _)

/-- Piecewise linearity of the break-free loop: between two consecutive
thresholds, `fedSum` grows exactly at the bracket's rate. -/
theorem fedSum_slope (l : List (ℚ × ℚ)) (i : ℕ) (hi : i < l.length)
    (hp : l.Pairwise fun a b => a.1 ≤ b.1) {t1 t2 : ℚ}
    (h1 : (l.get ⟨i, hi⟩).1 ≤ t1) (h12 : t1 ≤ t2)
    (h2 : ∀ p ∈ l.get? (i + 1), t2 ≤ p.1) :
    fedSum t2 l - fedSum t1 l = (l.get ⟨i, hi⟩).2 * (t2 - t1) := by
  induction l generalizing i with
  | nil => exact absurd hi (by simp)
  | cons a rest ih =>
    obtain ⟨s, r⟩ := a
    rw [List.pairwise_cons] at hp
    obtain ⟨hhead, htail⟩ := hp
    cases i with
    | zero =>
      have h1' : s ≤ t1 := h1
      cases rest with
      | nil =>
        rw [fedSum_single, fedSum_single, max_eq_right (by linarith),
          max_eq_right (by linarith)]
        dsimp only [List.get]
        ring
      | cons b rest2 =>
        obtain ⟨s2, r2⟩ := b
        have ht2 : t2 ≤ s2 := h2 (s2, r2) (by simp)
        have hz1 : fedSum t1 ((s2, r2) :: rest2) = 0 := by
          refine fedSum_eq_zero t1 _ fun p hp' => ?_
          rcases List.mem_cons.mp hp' with hp' | hp'
          · rw [hp']
            dsimp only
            linarith
          · rw [List.pairwise_cons] at htail
            have := htail.1 p hp'
            linarith
        have hz2 : fedSum t2 ((s2, r2) :: rest2) = 0 := by
          refine fedSum_eq_zero t2 _ fun p hp' => ?_
          rcases List.mem_cons.mp hp' with hp' | hp'
          · rw [hp']
            dsimp only
            linarith
          · rw [List.pairwise_cons] at htail
            have := htail.1 p hp'
            linarith
        rw [fedSum_pair, fedSum_pair, hz1, hz2,
          min_eq_left (by linarith), min_eq_left (by linarith),
          max_eq_right (by linarith), max_eq_right (by linarith)]
        dsimp only [List.get]
        ring
    | succ j =>
      cases rest with
      | nil => exact absurd hi (by simp)
      | cons b rest2 =>
        obtain ⟨s2, r2⟩ := b
        have hj : j < ((s2, r2) :: rest2).length := by simpa using hi
        have hs2 : s2 ≤ (((s2, r2) :: rest2).get ⟨j, hj⟩).1 :=
          pairwise_head_le s2 r2 rest2 htail j hj
        have h1'' : (((s2, r2) :: rest2).get ⟨j, hj⟩).1 ≤ t1 := h1
        have hrec := ih j hj htail h1'' (fun p hp' => h2 p hp')
        rw [fedSum_pair, fedSum_pair,
          min_eq_right (by linarith), min_eq_right (by linarith)]
        have hgoal :
            (((s, r) :: (s2, r2) :: rest2).get ⟨j + 1, hi⟩).2 =
              (((s2, r2) :: rest2).get ⟨j, hj⟩).2 := rfl
        rw [hgoal]
        linarith


/-! ## Bracket-table facts and function-level lemmas -/

/-- Every bracket table is sorted by threshold. -/
theorem brackets_sorted (st : Status) : (BRACKETS st).Pairwise fun a b => a.1 ≤ b.1 := by
  cases st <;> norm_num [BRACKETS, List.pairwise_cons]

/-- Every bracket rate is nonnegative. -/
theorem brackets_rates_nonneg (st : Status) : ∀ p ∈ BRACKETS st, 0 ≤ p.2 := by
  cases st <;> · intro p hp
                 simp only [BRACKETS, List.mem_cons, List.not_mem_nil, or_false] at hp
                 rcases hp with h | h | h | h | h | h | h <;> rw [h] <;> norm_num

/-- `federal_tax` is the rounding of the break-free bracket sum. -/
theorem federal_tax_eq_round2_fedSum (t : ℚ) (st : Status) :
    federal_tax t st = round2 (fedSum t (BRACKETS st)) := by
  unfold federal_tax
  rw [fedLoop_eq_fedSum t _ (brackets_sorted st)]

/-- `federal_tax` is monotone in taxable income. -/
theorem federal_tax_mono (st : Status) {t1 t2 : ℚ} (h : t1 ≤ t2) :
    federal_tax t1 st ≤ federal_tax t2 st := by
  rw [federal_tax_eq_round2_fedSum, federal_tax_eq_round2_fedSum]
  exact round2_mono (fedSum_mono _ (brackets_rates_nonneg st) h)

/-- Evaluate `federal_tax` at a concrete amount. -/
theorem federal_tax_eval (t : ℚ) (st : Status) (n : ℤ) (y : ℚ)
    (h1 : (n : ℚ) ≤ fedLoop t (BRACKETS st) * 100 + 1 / 2)
    (h2 : fedLoop t (BRACKETS st) * 100 + 1 / 2 < (n : ℚ) + 1)
    (h3 : (n : ℚ) / 100 = y) : federal_tax t st = y := by
  unfold federal_tax
  exact round2_eval _ n _ h1 h2 h3

/-- `federal_tax 0 = 0` for every status. -/
theorem federal_tax_zero (st : Status) : federal_tax 0 st = 0 := by
  have h : fedLoop 0 (BRACKETS st) = 0 := by
    cases st <;> norm_num [fedLoop, BRACKETS]
  unfold federal_tax
  rw [h]
  exact round2_eval 0 0 0 (by norm_num) (by norm_num) (by norm_num)

/-- For positive profit, `se_tax_from_sch_c` rounds the raw SE amount. -/
theorem se_tax_pos_eq {p : ℚ} (hp : 0 < p) : se_tax_from_sch_c p = round2 (seRaw p) := by
  unfold se_tax_from_sch_c seRaw
  rw [if_neg (by linarith)]

/-- Evaluate `se_tax_from_sch_c` at a concrete positive profit. -/
theorem se_tax_eval (p : ℚ) (n : ℤ) (y : ℚ) (hp : 0 < p)
    (h1 : (n : ℚ) ≤ seRaw p * 100 + 1 / 2) (h2 : seRaw p * 100 + 1 / 2 < (n : ℚ) + 1)
    (h3 : (n : ℚ) / 100 = y) : se_tax_from_sch_c p = y := by
  rw [se_tax_pos_eq hp]
  exact round2_eval _ n _ h1 h2 h3

/-- The raw SE amount is nonnegative for nonnegative profit. -/
theorem seRaw_nonneg {p : ℚ} (hp : 0 ≤ p) : 0 ≤ seRaw p := by
  unfold seRaw SE_MULTIPLIER SS_WAGE_BASE SOCSEC_RATE MEDICARE_RATE
  have h1 : (0 : ℚ) ≤ p * 0.9235 := by nlinarith
  have h2 : (0 : ℚ) ≤ min (p * 0.9235) 168600 := le_min h1 (by norm_num)
  nlinarith

/-- The raw SE amount is monotone in profit. -/
theorem seRaw_mono {p1 p2 : ℚ} (h : p1 ≤ p2) : seRaw p1 ≤ seRaw p2 := by
  unfold seRaw SE_MULTIPLIER SS_WAGE_BASE SOCSEC_RATE MEDICARE_RATE
  have hb : p1 * 0.9235 ≤ p2 * 0.9235 := by nlinarith
  have hmin : min (p1 * 0.9235) 168600 ≤ min (p2 * 0.9235) 168600 := min_le_min hb le_rfl
  nlinarith

/-- For positive profit, `qbi_from_sch_c` rounds the raw QBI amount. -/
theorem qbi_pos_eq {p : ℚ} (st : Status) (w o it : ℚ) (hp : 0 < p) :
    qbi_from_sch_c p st w o it = round2 (qbiRaw p st w o it) := by
  unfold qbi_from_sch_c qbiRaw
  rw [if_neg (by linarith)]

/-- Evaluate `qbi_from_sch_c` at a concrete positive profit. -/
theorem qbi_eval (p : ℚ) (st : Status) (w o it : ℚ) (n : ℤ) (y : ℚ) (hp : 0 < p)
    (h1 : (n : ℚ) ≤ qbiRaw p st w o it * 100 + 1 / 2)
    (h2 : qbiRaw p st w o it * 100 + 1 / 2 < (n : ℚ) + 1)
    (h3 : (n : ℚ) / 100 = y) : qbi_from_sch_c p st w o it = y := by
  rw [qbi_pos_eq st w o it hp]
  exact round2_eval _ n _ h1 h2 h3

/-! ## Projection lemmas for the composed results -/

theorem compute_baseline_ti (inp : Inputs) :
    (compute_baseline inp).taxable_income =
      max 0 (taxable_income inp.status inp.wages inp.sch_c inp.other_income inp.itemized -
        qbi_from_sch_c inp.sch_c inp.status inp.wages inp.other_income inp.itemized) := rfl

theorem compute_baseline_fed (inp : Inputs) :
    (compute_baseline inp).federal_tax =
      federal_tax (compute_baseline inp).taxable_income inp.status := rfl

theorem compute_baseline_se (inp : Inputs) :
    (compute_baseline inp).se_tax = se_tax_from_sch_c inp.sch_c := rfl

theorem compute_baseline_qbi (inp : Inputs) :
    (compute_baseline inp).qbi =
      qbi_from_sch_c inp.sch_c inp.status inp.wages inp.other_income inp.itemized := rfl

theorem compute_baseline_total (inp : Inputs) :
    (compute_baseline inp).total_tax =
      (compute_baseline inp).federal_tax + (compute_baseline inp).se_tax := rfl

/-! ## Shared concrete evaluations (spec's end-to-end example) -/

theorem taxable_income_C1 : taxable_income .MFJ 120000 60000 5000 12000 = 155800 := by
  norm_num [taxable_income, STANDARD_DED, max_def]

theorem qbi_C1 : qbi_from_sch_c 60000 .MFJ 120000 5000 12000 = 12000 :=
  qbi_eval _ _ _ _ _ 1200000 _ (by norm_num)
    (by norm_num [qbiRaw, STANDARD_DED, min_def, max_def])
    (by norm_num [qbiRaw, STANDARD_DED, min_def, max_def]) (by norm_num)

theorem se_tax_C1 : se_tax_from_sch_c 60000 = 8477.73 :=
  se_tax_eval _ 847773 _ (by norm_num)
    (by norm_num [seRaw, SE_MULTIPLIER, SS_WAGE_BASE, SOCSEC_RATE, MEDICARE_RATE, min_def])
    (by norm_num [seRaw, SE_MULTIPLIER, SS_WAGE_BASE, SOCSEC_RATE, MEDICARE_RATE, min_def])
    (by norm_num)

theorem federal_tax_C1 : federal_tax 143800 .MFJ = 21742 :=
  federal_tax_eval _ _ 2174200 _ (by norm_num [fedLoop, BRACKETS])
    (by norm_num [fedLoop, BRACKETS]) (by norm_num)

theorem isTwoDec_zero : isTwoDec 0 := ⟨0, by norm_num⟩

theorem federal_tax_twoDec (t : ℚ) (st : Status) : isTwoDec (federal_tax t st) := by
  unfold federal_tax
  exact isTwoDec_round2 _

theorem se_tax_twoDec (p : ℚ) : isTwoDec (se_tax_from_sch_c p) := by
  unfold se_tax_from_sch_c
  split_ifs
  · exact isTwoDec_zero
  · exact isTwoDec_round2 _

theorem qbi_twoDec (p : ℚ) (st : Status) (w o it : ℚ) :
    isTwoDec (qbi_from_sch_c p st w o it) := by
  unfold qbi_from_sch_c
  split_ifs
  · exact isTwoDec_zero
  · exact isTwoDec_round2 _

/-! ## Claim theorems -/

/-- Claim C1, counterexample: on the spec's end-to-end example
(MFJ, wages 120000, profit 60000, other 5000, itemized 12000, no election)
the SE tax reported by `compute_baseline` is not 8478.73 — the spec's
arithmetic slips on the Social-Security portion (55410 × 0.124 = 6870.84,
not 6871.84). -/
theorem baseline_example_se_cex :
    (compute_baseline ⟨.MFJ, 120000, 60000, 5000, 12000, 0, false⟩).se_tax ≠ 8478.73 := by
  show se_tax_from_sch_c 60000 ≠ 8478.73
  rw [se_tax_C1]
  norm_num

/-- Claim C1 (amended): on the baseline evaluation with status MFJ, wages
120000, business profit 60000, other income 5000, itemized 12000 and no
S-Corp election, `compute_baseline` returns QBI deduction 12000, post-QBI
taxable income 143800, and SE tax of exactly 8477.73 (via an SE base of
55410, below the 168600 wage cap); federal tax is 21742 and total
30219.73. -/
theorem baseline_example_mfj :
    compute_baseline ⟨.MFJ, 120000, 60000, 5000, 12000, 0, false⟩ =
      ⟨143800, 21742, 8477.73, 12000, 30219.73⟩ ∧
    (60000 : ℚ) * SE_MULTIPLIER = 55410 ∧ (55410 : ℚ) < SS_WAGE_BASE := by
  refine ⟨?_, by norm_num [SE_MULTIPLIER], by norm_num [SS_WAGE_BASE]⟩
  refine TaxResult.ext ?_ ?_ ?_ ?_ ?_
  · show max 0 (taxable_income .MFJ 120000 60000 5000 12000 -
      qbi_from_sch_c 60000 .MFJ 120000 5000 12000) = 143800
    rw [taxable_income_C1, qbi_C1]
    norm_num
  · show federal_tax (max 0 (taxable_income .MFJ 120000 60000 5000 12000 -
      qbi_from_sch_c 60000 .MFJ 120000 5000 12000)) .MFJ = 21742
    rw [taxable_income_C1, qbi_C1, show max (0 : ℚ) (155800 - 12000) = 143800 by norm_num]
    exact federal_tax_C1
  · show se_tax_from_sch_c 60000 = 8477.73
    exact se_tax_C1
  · show qbi_from_sch_c 60000 .MFJ 120000 5000 12000 = 12000
    exact qbi_C1
  · show federal_tax (max 0 (taxable_income .MFJ 120000 60000 5000 12000 -
      qbi_from_sch_c 60000 .MFJ 120000 5000 12000)) .MFJ + se_tax_from_sch_c 60000 = 30219.73
    rw [taxable_income_C1, qbi_C1, show max (0 : ℚ) (155800 - 12000) = 143800 by norm_num,
      federal_tax_C1, se_tax_C1]
    norm_num

/-- Claim C2, counterexample: `compute_baseline`'s reported taxable income
is not rounded at the function boundary — with wages a half-cent above the
standard deduction it carries three decimal places. -/
theorem taxable_income_not_rounded_cex :
    ¬ isTwoDec ((compute_baseline ⟨.S, 14600 + 1 / 200, 0, 0, 0, 0, false⟩).taxable_income) := by
  have hq : qbi_from_sch_c 0 .S (14600 + 1 / 200) 0 0 = 0 := by
    unfold qbi_from_sch_c
    rw [if_pos le_rfl]
  have h : (compute_baseline ⟨.S, 14600 + 1 / 200, 0, 0, 0, 0, false⟩).taxable_income
      = 1 / 200 := by
    show max 0 (taxable_income .S (14600 + 1 / 200) 0 0 0 -
      qbi_from_sch_c 0 .S (14600 + 1 / 200) 0 0) = 1 / 200
    rw [hq]
    norm_num [taxable_income, STANDARD_DED, max_def]
  rw [h]
  exact not_isTwoDec_half_cent

/-- Claim C2 (amended): the federal-tax, SE-tax and QBI functions round to
two decimal places at their own return boundaries, and the corresponding
fields of `compute_baseline` are whole cents; `taxable_income` (and hence
the reported taxable-income and total-tax values) is not rounded at its
boundary, so those values carry at most two decimals only when the inputs
do. -/
theorem rounding_at_function_boundaries :
    (∀ (t : ℚ) (st : Status), isTwoDec (federal_tax t st)) ∧
    (∀ p : ℚ, isTwoDec (se_tax_from_sch_c p)) ∧
    (∀ (p : ℚ) (st : Status) (w o it : ℚ), isTwoDec (qbi_from_sch_c p st w o it)) ∧
    (∀ inp : Inputs, isTwoDec (compute_baseline inp).federal_tax ∧
      isTwoDec (compute_baseline inp).se_tax ∧ isTwoDec (compute_baseline inp).qbi) :=
  ⟨fun t st => federal_tax_twoDec t st, fun p => se_tax_twoDec p,
   fun p st w o it => qbi_twoDec p st w o it,
   fun _ => ⟨federal_tax_twoDec _ _, se_tax_twoDec _, qbi_twoDec _ _ _ _ _⟩⟩

/-- Claim C7: with the S-Corp election flag set, `compute_scenario` reports
SE tax exactly 0 and total tax equal to federal tax alone, computing QBI and
taxable income on the adjusted wage/profit split (profit floored at 0 after
subtracting `reasonable_comp`, which is added to wages). -/
theorem scenario_scorp (inp : Inputs) (h : inp.s_corp = true) :
    (compute_scenario inp).se_tax = 0 ∧
    (compute_scenario inp).total_tax = (compute_scenario inp).federal_tax ∧
    compute_scenario inp = scorpExpected inp := by
  have hsc : compute_scenario inp = scorpExpected inp := by
    unfold compute_scenario scorpExpected
    rw [if_pos h]
  refine ⟨?_, ?_, hsc⟩
  · rw [hsc]
    rfl
  · rw [hsc]
    show (scorpExpected inp).total_tax = (scorpExpected inp).federal_tax
    simp only [scorpExpected]
    rw [add_zero]

/-- Witness for C7 at the spec's second end-to-end example input. -/
theorem scenario_scorp_witness :
    (compute_scenario ⟨.MFJ, 120000, 60000, 5000, 12000, 72000, true⟩).se_tax = 0 ∧
    (compute_scenario ⟨.MFJ, 120000, 60000, 5000, 12000, 72000, true⟩).total_tax =
      (compute_scenario ⟨.MFJ, 120000, 60000, 5000, 12000, 72000, true⟩).federal_tax ∧
    compute_scenario ⟨.MFJ, 120000, 60000, 5000, 12000, 72000, true⟩ =
      scorpExpected ⟨.MFJ, 120000, 60000, 5000, 12000, 72000, true⟩ :=
  scenario_scorp _ rfl

/-- Claim C8: for any filing-status value outside the three enumerated
values S, MFJ, HOH, the status lookup performed by `taxable_income` and
`federal_tax` fails with `InvalidFilingStatus`, which propagates to the
caller instead of defaulting to some table. -/
theorem invalid_status_errors (s : String) (t w x y z : ℚ)
    (h1 : s ≠ "S") (h2 : s ≠ "MFJ") (h3 : s ≠ "HOH") :
    taxable_income_checked s w x y z = .error .invalidFilingStatus ∧
    federal_tax_checked t s = .error .invalidFilingStatus := by
  unfold taxable_income_checked federal_tax_checked lookupStatus
  rw [if_neg h1, if_neg h2, if_neg h3]
  exact ⟨rfl, rfl⟩

/-- Witness for C8 at the unknown status string "MFS". -/
theorem invalid_status_errors_witness :
    taxable_income_checked "MFS" 1 2 3 4 = .error .invalidFilingStatus ∧
    federal_tax_checked 5 "MFS" = .error .invalidFilingStatus :=
  invalid_status_errors "MFS" 5 1 2 3 4 (by decide) (by decide) (by decide)

/-- Claim C9: without the S-Corp election, `compute_scenario` returns the
very result of `compute_baseline` on the same input. -/
theorem scenario_no_election (inp : Inputs) (h : inp.s_corp = false) :
    compute_scenario inp = compute_baseline inp := by
  unfold compute_scenario
  rw [if_neg (by rw [h]; exact Bool.false_ne_true)]

/-- Witness for C9 at a concrete non-elected input. -/
theorem scenario_no_election_witness :
    compute_scenario ⟨.S, 10000, 5000, 0, 0, 2000, false⟩ =
      compute_baseline ⟨.S, 10000, 5000, 0, 0, 2000, false⟩ :=
  scenario_no_election _ rfl

/-- Claim C10: `compute_baseline` never reads the `s_corp` flag or the
`reasonable_comp` field — two inputs agreeing on the five other fields get
equal results. -/
theorem baseline_ignores_scorp_fields (i1 i2 : Inputs)
    (hs : i1.status = i2.status) (hw : i1.wages = i2.wages) (hc : i1.sch_c = i2.sch_c)
    (ho : i1.other_income = i2.other_income) (hit : i1.itemized = i2.itemized) :
    compute_baseline i1 = compute_baseline i2 := by
  obtain ⟨s1, w1, c1, o1, it1, rc1, sc1⟩ := i1
  obtain ⟨s2, w2, c2, o2, it2, rc2, sc2⟩ := i2
  dsimp only at hs hw hc ho hit
  subst hs hw hc ho hit
  rfl

/-- Witness for C10: the `reasonable_comp` and `s_corp` fields differ, the
baseline results coincide. -/
theorem baseline_ignores_scorp_fields_witness :
    compute_baseline ⟨.S, 50000, 20000, 1000, 0, 0, false⟩ =
      compute_baseline ⟨.S, 50000, 20000, 1000, 0, 30000, true⟩ :=
  baseline_ignores_scorp_fields _ _ rfl rfl rfl rfl rfl

/-- Claim C3, counterexample: on the rounded `federal_tax` the slope
assertion fails — both 0.01 and 0.02 lie strictly inside the first S
bracket (rate 0.10), yet the tax difference is 0, not 0.10 × 0.01, because
both pre-rounding amounts round to the same cent. -/
theorem federal_tax_slope_cex :
    (0 : ℚ) ≤ 1 / 100 ∧ (1 : ℚ) / 100 ≤ 2 / 100 ∧ (2 : ℚ) / 100 ≤ 11600 ∧
    (BRACKETS .S).get? 0 = some (0, 0.10) ∧
    federal_tax (2 / 100) .S - federal_tax (1 / 100) .S ≠ 0.10 * (2 / 100 - 1 / 100) := by
  have e1 : federal_tax (1 / 100) .S = 0 :=
    federal_tax_eval _ _ 0 _ (by norm_num [fedLoop, BRACKETS, min_def])
      (by norm_num [fedLoop, BRACKETS, min_def]) (by norm_num)
  have e2 : federal_tax (2 / 100) .S = 0 :=
    federal_tax_eval _ _ 0 _ (by norm_num [fedLoop, BRACKETS, min_def])
      (by norm_num [fedLoop, BRACKETS, min_def]) (by norm_num)
  refine ⟨by norm_num, by norm_num, by norm_num, rfl, ?_⟩
  rw [e1, e2]
  norm_num

/-- Claim C3 (amended): for every status, `federal_tax` is monotonically
non-decreasing on nonnegative taxable incomes and is 0 at 0; it equals the
cent-rounding of the break-free bracket sum `fedSum`, and that pre-rounding
sum is piecewise linear with slope exactly the active bracket's rate
(rounding perturbs each value by at most half a cent, so the exact slope
holds before rounding, not after). -/
theorem federal_tax_shape :
    (∀ (st : Status) (t1 t2 : ℚ), 0 ≤ t1 → t1 ≤ t2 → federal_tax t1 st ≤ federal_tax t2 st) ∧
    (∀ st : Status, federal_tax 0 st = 0) ∧
    (∀ (st : Status) (t : ℚ), federal_tax t st = round2 (fedSum t (BRACKETS st))) ∧
    (∀ (st : Status) (i : ℕ) (hi : i < (BRACKETS st).length) (t1 t2 : ℚ),
      ((BRACKETS st).get ⟨i, hi⟩).1 ≤ t1 → t1 ≤ t2 →
      (∀ p ∈ (BRACKETS st).get? (i + 1), t2 ≤ p.1) →
      fedSum t2 (BRACKETS st) - fedSum t1 (BRACKETS st) =
        ((BRACKETS st).get ⟨i, hi⟩).2 * (t2 - t1)) :=
  ⟨fun st _ _ _ h12 => federal_tax_mono st h12,
   federal_tax_zero,
   fun st t => federal_tax_eq_round2_fedSum t st,
   fun st i hi _ _ h1 h12 h2 => fedSum_slope _ i hi (brackets_sorted st) h1 h12 h2⟩

/-- Witness for C3 at concrete points: monotonicity at 100 ≤ 200 (status S)
and the exact 12% slope of the pre-rounding sum across the full second MFJ
bracket. -/
theorem federal_tax_shape_witness :
    federal_tax 100 .S ≤ federal_tax 200 .S ∧
    fedSum 94300 (BRACKETS .MFJ) - fedSum 23200 (BRACKETS .MFJ) = 0.12 * (94300 - 23200) := by
  constructor
  · exact federal_tax_shape.1 .S 100 200 (by norm_num) (by norm_num)
  · exact federal_tax_shape.2.2.2 .MFJ 1 (by norm_num [BRACKETS]) 23200 94300 le_rfl
      (by norm_num)
      (by
        intro p hp
        rw [show (BRACKETS Status.MFJ).get? 2 = some ((94300 : ℚ), (0.22 : ℚ)) from rfl] at hp
        rw [Option.mem_some_iff] at hp
        rw [← hp])

set_option maxHeartbeats 1600000 in
/-- Claim C4: for every status and every bracket threshold, `federal_tax`
at the threshold equals the sum over the lower brackets of width × rate
(continuity at bracket boundaries: no jump). -/
theorem federal_tax_threshold_continuity :
    ∀ (st : Status) (j : Fin 7),
      federal_tax (nthBracket st j.val).1 st = lowerBracketSum st j.val := by
  intro st j
  cases st <;> fin_cases j
  · exact federal_tax_eval _ _ 0 _ (by norm_num [fedLoop, BRACKETS, nthBracket, min_def])
      (by norm_num [fedLoop, BRACKETS, nthBracket, min_def])
      (by norm_num [lowerBracketSum, nthBracket, BRACKETS])
  · exact federal_tax_eval _ _ 116000 _ (by norm_num [fedLoop, BRACKETS, nthBracket, min_def])
      (by norm_num [fedLoop, BRACKETS, nthBracket, min_def])
      (by norm_num [lowerBracketSum, nthBracket, BRACKETS, Finset.sum_range_succ])
  · exact federal_tax_eval _ _ 542600 _ (by norm_num [fedLoop, BRACKETS, nthBracket, min_def])
      (by norm_num [fedLoop, BRACKETS, nthBracket, min_def])
      (by norm_num [lowerBracketSum, nthBracket, BRACKETS, Finset.sum_range_succ])
  · exact federal_tax_eval _ _ 1716850 _ (by norm_num [fedLoop, BRACKETS, nthBracket, min_def])
      (by norm_num [fedLoop, BRACKETS, nthBracket, min_def])
      (by norm_num [lowerBracketSum, nthBracket, BRACKETS, Finset.sum_range_succ])
  · exact federal_tax_eval _ _ 3911050 _ (by norm_num [fedLoop, BRACKETS, nthBracket, min_def])
      (by norm_num [fedLoop, BRACKETS, nthBracket, min_def])
      (by norm_num [lowerBracketSum, nthBracket, BRACKETS, Finset.sum_range_succ])
  · exact federal_tax_eval _ _ 5567850 _ (by norm_num [fedLoop, BRACKETS, nthBracket, min_def])
      (by norm_num [fedLoop, BRACKETS, nthBracket, min_def])
      (by norm_num [lowerBracketSum, nthBracket, BRACKETS, Finset.sum_range_succ])
  · exact federal_tax_eval _ _ 18364725 _ (by norm_num [fedLoop, BRACKETS, nthBracket, min_def])
      (by norm_num [fedLoop, BRACKETS, nthBracket, min_def])
      (by norm_num [lowerBracketSum, nthBracket, BRACKETS, Finset.sum_range_succ])
  · exact federal_tax_eval _ _ 0 _ (by norm_num [fedLoop, BRACKETS, nthBracket, min_def])
      (by norm_num [fedLoop, BRACKETS, nthBracket, min_def])
      (by norm_num [lowerBracketSum, nthBracket, BRACKETS])
  · exact federal_tax_eval _ _ 232000 _ (by norm_num [fedLoop, BRACKETS, nthBracket, min_def])
      (by norm_num [fedLoop, BRACKETS, nthBracket, min_def])
      (by norm_num [lowerBracketSum, nthBracket, BRACKETS, Finset.sum_range_succ])
  · exact federal_tax_eval _ _ 1085200 _ (by norm_num [fedLoop, BRACKETS, nthBracket, min_def])
      (by norm_num [fedLoop, BRACKETS, nthBracket, min_def])
      (by norm_num [lowerBracketSum, nthBracket, BRACKETS, Finset.sum_range_succ])
  · exact federal_tax_eval _ _ 3433700 _ (by norm_num [fedLoop, BRACKETS, nthBracket, min_def])
      (by norm_num [fedLoop, BRACKETS, nthBracket, min_def])
      (by norm_num [lowerBracketSum, nthBracket, BRACKETS, Finset.sum_range_succ])
  · exact federal_tax_eval _ _ 7822100 _ (by norm_num [fedLoop, BRACKETS, nthBracket, min_def])
      (by norm_num [fedLoop, BRACKETS, nthBracket, min_def])
      (by norm_num [lowerBracketSum, nthBracket, BRACKETS, Finset.sum_range_succ])
  · exact federal_tax_eval _ _ 11135700 _ (by norm_num [fedLoop, BRACKETS, nthBracket, min_def])
      (by norm_num [fedLoop, BRACKETS, nthBracket, min_def])
      (by norm_num [lowerBracketSum, nthBracket, BRACKETS, Finset.sum_range_succ])
  · exact federal_tax_eval _ _ 19666950 _ (by norm_num [fedLoop, BRACKETS, nthBracket, min_def])
      (by norm_num [fedLoop, BRACKETS, nthBracket, min_def])
      (by norm_num [lowerBracketSum, nthBracket, BRACKETS, Finset.sum_range_succ])
  · exact federal_tax_eval _ _ 0 _ (by norm_num [fedLoop, BRACKETS, nthBracket, min_def])
      (by norm_num [fedLoop, BRACKETS, nthBracket, min_def])
      (by norm_num [lowerBracketSum, nthBracket, BRACKETS])
  · exact federal_tax_eval _ _ 165500 _ (by norm_num [fedLoop, BRACKETS, nthBracket, min_def])
      (by norm_num [fedLoop, BRACKETS, nthBracket, min_def])
      (by norm_num [lowerBracketSum, nthBracket, BRACKETS, Finset.sum_range_succ])
  · exact federal_tax_eval _ _ 724100 _ (by norm_num [fedLoop, BRACKETS, nthBracket, min_def])
      (by norm_num [fedLoop, BRACKETS, nthBracket, min_def])
      (by norm_num [lowerBracketSum, nthBracket, BRACKETS, Finset.sum_range_succ])
  · exact federal_tax_eval _ _ 1546900 _ (by norm_num [fedLoop, BRACKETS, nthBracket, min_def])
      (by norm_num [fedLoop, BRACKETS, nthBracket, min_def])
      (by norm_num [lowerBracketSum, nthBracket, BRACKETS, Finset.sum_range_succ])
  · exact federal_tax_eval _ _ 3741700 _ (by norm_num [fedLoop, BRACKETS, nthBracket, min_def])
      (by norm_num [fedLoop, BRACKETS, nthBracket, min_def])
      (by norm_num [lowerBracketSum, nthBracket, BRACKETS, Finset.sum_range_succ])
  · exact federal_tax_eval _ _ 5397700 _ (by norm_num [fedLoop, BRACKETS, nthBracket, min_def])
      (by norm_num [fedLoop, BRACKETS, nthBracket, min_def])
      (by norm_num [lowerBracketSum, nthBracket, BRACKETS, Finset.sum_range_succ])
  · exact federal_tax_eval _ _ 18195450 _ (by norm_num [fedLoop, BRACKETS, nthBracket, min_def])
      (by norm_num [fedLoop, BRACKETS, nthBracket, min_def])
      (by norm_num [lowerBracketSum, nthBracket, BRACKETS, Finset.sum_range_succ])

/-- Claim C5, counterexample: above the wage cap the rounded SE tax is not
strictly increasing and its marginal growth is not the Medicare-only rate —
profits 200000 and 200000.001 (both with SE base above 168600) yield the
same rounded SE tax, so the difference is 0, not 0.9235 × 0.029 × 0.001. -/
theorem se_tax_slope_cex :
    (200000 : ℚ) < 200000 + 1 / 1000 ∧ (168600 : ℚ) ≤ 0.9235 * 200000 ∧
    se_tax_from_sch_c (200000 + 1 / 1000) = se_tax_from_sch_c 200000 ∧
    se_tax_from_sch_c (200000 + 1 / 1000) - se_tax_from_sch_c 200000 ≠
      0.9235 * 0.029 * (200000 + 1 / 1000 - 200000) := by
  have h1 : se_tax_from_sch_c 200000 = 26262.70 :=
    se_tax_eval _ 2626270 _ (by norm_num)
      (by norm_num [seRaw, SE_MULTIPLIER, SS_WAGE_BASE, SOCSEC_RATE, MEDICARE_RATE, min_def])
      (by norm_num [seRaw, SE_MULTIPLIER, SS_WAGE_BASE, SOCSEC_RATE, MEDICARE_RATE, min_def])
      (by norm_num)
  have h2 : se_tax_from_sch_c (200000 + 1 / 1000) = 26262.70 :=
    se_tax_eval _ 2626270 _ (by norm_num)
      (by norm_num [seRaw, SE_MULTIPLIER, SS_WAGE_BASE, SOCSEC_RATE, MEDICARE_RATE, min_def])
      (by norm_num [seRaw, SE_MULTIPLIER, SS_WAGE_BASE, SOCSEC_RATE, MEDICARE_RATE, min_def])
      (by norm_num)
  refine ⟨by norm_num, by norm_num, by rw [h1, h2], ?_⟩
  rw [h1, h2]
  norm_num

/-- Claim C5 (amended): `se_tax_from_sch_c` returns 0 for profit ≤ 0; for
profit > 0 it returns `min(0.9235·profit, 168600)·0.124 +
(0.9235·profit)·0.029` rounded to the nearest cent; it is monotonically
non-decreasing in profit, and the pre-rounding amount `seRaw` grows at the
combined rate 0.9235·(0.124+0.029) below the wage cap and at the
Medicare-only rate 0.9235·0.029 once the SE base exceeds the cap (the
rounded value moves in cent steps, so the exact slopes hold before
rounding). -/
theorem se_tax_props :
    (∀ p : ℚ, p ≤ 0 → se_tax_from_sch_c p = 0) ∧
    (∀ p : ℚ, 0 < p →
      se_tax_from_sch_c p = round2 (min (0.9235 * p) 168600 * 0.124 + 0.9235 * p * 0.029)) ∧
    (∀ p1 p2 : ℚ, p1 ≤ p2 → se_tax_from_sch_c p1 ≤ se_tax_from_sch_c p2) ∧
    (∀ p1 p2 : ℚ, 0 < p1 → p1 ≤ p2 → 0.9235 * p2 ≤ 168600 →
      seRaw p2 - seRaw p1 = 0.9235 * (0.124 + 0.029) * (p2 - p1)) ∧
    (∀ p1 p2 : ℚ, 168600 ≤ 0.9235 * p1 → p1 ≤ p2 →
      seRaw p2 - seRaw p1 = 0.9235 * 0.029 * (p2 - p1)) := by
  refine ⟨?_, ?_, ?_, ?_, ?_⟩
  · intro p hp
    unfold se_tax_from_sch_c
    rw [if_pos hp]
  · intro p hp
    rw [se_tax_pos_eq hp]
    unfold seRaw SE_MULTIPLIER SS_WAGE_BASE SOCSEC_RATE MEDICARE_RATE
    rw [mul_comm p 0.9235]
  · intro p1 p2 h
    by_cases h1 : p1 ≤ 0
    · rw [show se_tax_from_sch_c p1 = 0 from by unfold se_tax_from_sch_c; rw [if_pos h1]]
      by_cases h2 : p2 ≤ 0
      · rw [show se_tax_from_sch_c p2 = 0 from by unfold se_tax_from_sch_c; rw [if_pos h2]]
      · rw [se_tax_pos_eq (by linarith)]
        exact round2_nonneg (seRaw_nonneg (by linarith))
    · rw [se_tax_pos_eq (by linarith), se_tax_pos_eq (by linarith : (0 : ℚ) < p2)]
      exact round2_mono (seRaw_mono h)
  · intro p1 p2 _ h12 hcap
    unfold seRaw SE_MULTIPLIER SS_WAGE_BASE SOCSEC_RATE MEDICARE_RATE
    rw [min_eq_left (by nlinarith), min_eq_left (by nlinarith)]
    ring
  · intro p1 p2 hcap h12
    unfold seRaw SE_MULTIPLIER SS_WAGE_BASE SOCSEC_RATE MEDICARE_RATE
    rw [min_eq_right (by nlinarith), min_eq_right (by nlinarith)]
    ring

/-- Witness for C5 at concrete profits: a negative profit, the formula at
60000, monotonicity between 100 and 200, the combined slope between 50000
and 100000 (below cap), and the Medicare-only slope between 200000 and
250000 (above cap). -/
theorem se_tax_props_witness :
    se_tax_from_sch_c (-5) = 0 ∧
    se_tax_from_sch_c 60000 =
      round2 (min (0.9235 * 60000) 168600 * 0.124 + 0.9235 * 60000 * 0.029) ∧
    se_tax_from_sch_c 100 ≤ se_tax_from_sch_c 200 ∧
    seRaw 100000 - seRaw 50000 = 0.9235 * (0.124 + 0.029) * (100000 - 50000) ∧
    seRaw 250000 - seRaw 200000 = 0.9235 * 0.029 * (250000 - 200000) :=
  ⟨se_tax_props.1 (-5) (by norm_num), se_tax_props.2.1 60000 (by norm_num),
   se_tax_props.2.2.1 100 200 (by norm_num),
   se_tax_props.2.2.2.1 50000 100000 (by norm_num) (by norm_num) (by norm_num),
   se_tax_props.2.2.2.2 200000 250000 (by norm_num) (by norm_num)⟩

/-- Claim C6, counterexample: the rounded QBI deduction can exceed
0.2 × profit — at profit 35.03 (with ample pre-QBI taxable income) the
deduction is round2(7.006) = 7.01 > 7.006. -/
theorem qbi_bound_cex :
    0.2 * (35.03 : ℚ) < qbi_from_sch_c 35.03 .S 100000 0 0 := by
  have h : qbi_from_sch_c 35.03 .S 100000 0 0 = 7.01 :=
    qbi_eval _ _ _ _ _ 701 _ (by norm_num)
      (by norm_num [qbiRaw, STANDARD_DED, min_def, max_def])
      (by norm_num [qbiRaw, STANDARD_DED, min_def, max_def]) (by norm_num)
  rw [h]
  norm_num

/-- Claim C6 (amended): `qbi_from_sch_c` returns 0 when the profit figure
is ≤ 0, and for profit > 0 it equals the lesser of 0.2 × profit and the
pre-QBI taxable income `max 0 (wages + profit + other − max(std, itemized))`
rounded to the nearest cent; before rounding it never exceeds either bound,
so the returned value exceeds neither bound by more than half a cent. -/
theorem qbi_props :
    (∀ (p : ℚ) (st : Status) (w o it : ℚ), p ≤ 0 → qbi_from_sch_c p st w o it = 0) ∧
    (∀ (p : ℚ) (st : Status) (w o it : ℚ), 0 < p →
      qbi_from_sch_c p st w o it =
        round2 (min (0.2 * p) (max 0 (w + p + o - max (STANDARD_DED st) it)))) ∧
    (∀ (p : ℚ) (st : Status) (w o it : ℚ), 0 < p →
      qbi_from_sch_c p st w o it ≤ 0.2 * p + 1 / 200 ∧
      qbi_from_sch_c p st w o it ≤
        max 0 (w + p + o - max (STANDARD_DED st) it) + 1 / 200) := by
  refine ⟨?_, ?_, ?_⟩
  · intro p st w o it hp
    unfold qbi_from_sch_c
    rw [if_pos hp]
  · intro p st w o it hp
    rw [qbi_pos_eq st w o it hp]
    rfl
  · intro p st w o it hp
    rw [qbi_pos_eq st w o it hp]
    have hb := round2_le_half_cent (qbiRaw p st w o it)
    constructor
    · have h1 : qbiRaw p st w o it ≤ 0.2 * p := by
        unfold qbiRaw
        exact min_le_left _ _
      linarith
    · have h1 : qbiRaw p st w o it ≤ max 0 (w + p + o - max (STANDARD_DED st) it) := by
        unfold qbiRaw
        exact min_le_right _ _
      linarith

/-- Witness for C6 at concrete inputs: zero at a negative profit, the
rounded-min formula and both half-cent bounds at the spec's example
profit. -/
theorem qbi_props_witness :
    qbi_from_sch_c (-3) .S 1000 0 0 = 0 ∧
    qbi_from_sch_c 60000 .MFJ 120000 5000 12000 =
      round2 (min (0.2 * 60000) (max 0 (120000 + 60000 + 5000 - max (STANDARD_DED .MFJ) 12000))) ∧
    qbi_from_sch_c 60000 .MFJ 120000 5000 12000 ≤ 0.2 * 60000 + 1 / 200 ∧
    qbi_from_sch_c 60000 .MFJ 120000 5000 12000 ≤
      max 0 (120000 + 60000 + 5000 - max (STANDARD_DED .MFJ) 12000) + 1 / 200 :=
  ⟨qbi_props.1 (-3) .S 1000 0 0 (by norm_num),
   qbi_props.2.1 60000 .MFJ 120000 5000 12000 (by norm_num),
   (qbi_props.2.2 60000 .MFJ 120000 5000 12000 (by norm_num)).1,
   (qbi_props.2.2 60000 .MFJ 120000 5000 12000 (by norm_num)).2⟩
